import Mathlib

/-!
Shallow embedding of the live-state client of the ClawdeBot dashboard
(`src/hooks/use-bot-stream.ts`) and of the bot-state fallback API route,
together with theorems settling the behavioural claims about them.
-/

namespace ClawdeBot

/-- Mirror of the `BotState` interface of `use-bot-stream.ts`.
`number` fields are modelled as `Int`, `T | null` as `Option T`. -/
structure BotState where
  tokenAddress : Option String
  totalBuys : Int
  totalSells : Int
  totalBuyVolume : Int
  totalSellVolume : Int
  lastPrice : Option Int
  highestPrice : Option Int
  lowestPrice : Option Int
  lastMarketCap : Option Int
  lastHolderCount : Option Int
  lastCreatorRewardsAvailable : Int
  creatorRewards : Int
  totalAnalyses : Int
  startTime : Option Int
  analysisMode : String
deriving DecidableEq

/-- The `holder_count` field of a trade is `number | string` in the source. -/
inductive HolderCount where
  | num (n : Int)
  | text (s : String)
deriving DecidableEq

/-- Mirror of the `Trade` interface of `use-bot-stream.ts`. -/
structure Trade where
  timestamp : Int
  type : String
  price : Int
  sol_amount : Int
  volume_usd : Int
  token_amount : Int
  market_cap_sol : Int
  holder_count : HolderCount
  user : String
  signature : String
  aiComment : Option String
deriving DecidableEq

/-- Mirror of the `BotAction` interface of `use-bot-stream.ts`.
The free-form `details` record is modelled as a key-value list. -/
structure BotAction where
  timestamp : String
  type : String
  description : String
  details : List (String × String)
deriving DecidableEq

/-- Mirror of `Partial<BotState>`: every field optional (`none` = key absent). -/
structure BotStateUpdate where
  tokenAddress : Option (Option String)
  totalBuys : Option Int
  totalSells : Option Int
  totalBuyVolume : Option Int
  totalSellVolume : Option Int
  lastPrice : Option (Option Int)
  highestPrice : Option (Option Int)
  lowestPrice : Option (Option Int)
  lastMarketCap : Option (Option Int)
  lastHolderCount : Option (Option Int)
  lastCreatorRewardsAvailable : Option Int
  creatorRewards : Option Int
  totalAnalyses : Option Int
  startTime : Option (Option Int)
  analysisMode : Option String
deriving DecidableEq

/-- The view exposed by `useBotStream`: the five React state cells. -/
structure View where
  isConnected : Bool
  state : Option BotState
  trades : List Trade
  actions : List BotAction
  error : Option String
deriving DecidableEq

/-- A parsed `WebSocketMessage`, one variant per recognised `type` tag plus an
`unknown` variant for every unrecognised tag.  For `initial_state` the
`recent_trades` / `recent_actions` arrays may be absent (`none`), mirroring the
`data.recent_trades || []` reads in the source. -/
inductive WSMessage where
  | initialState (state : BotState) (recentTrades : Option (List Trade))
      (recentActions : Option (List BotAction))
  | trade (t : Trade)
  | action (a : BotAction)
  | stateUpdate (u : BotStateUpdate)
  | pong
  | unknown (tag : String)
deriving DecidableEq

/-- JS `l.slice(-n)`: the last `min n l.length` elements of `l`. -/
def sliceLastN (l : List α) (n : Nat) : List α :=
  l.drop (l.length - n)

/-- JS object spread `{ ...prev, ...update }` on a `Partial<BotState>`:
every key present in `update` wins, every absent key keeps `prev`'s value. -/
def mergeState (prev : BotState) (u : BotStateUpdate) : BotState where
  tokenAddress := u.tokenAddress.getD prev.tokenAddress
  totalBuys := u.totalBuys.getD prev.totalBuys
  totalSells := u.totalSells.getD prev.totalSells
  totalBuyVolume := u.totalBuyVolume.getD prev.totalBuyVolume
  totalSellVolume := u.totalSellVolume.getD prev.totalSellVolume
  lastPrice := u.lastPrice.getD prev.lastPrice
  highestPrice := u.highestPrice.getD prev.highestPrice
  lowestPrice := u.lowestPrice.getD prev.lowestPrice
  lastMarketCap := u.lastMarketCap.getD prev.lastMarketCap
  lastHolderCount := u.lastHolderCount.getD prev.lastHolderCount
  lastCreatorRewardsAvailable :=
    u.lastCreatorRewardsAvailable.getD prev.lastCreatorRewardsAvailable
  creatorRewards := u.creatorRewards.getD prev.creatorRewards
  totalAnalyses := u.totalAnalyses.getD prev.totalAnalyses
  startTime := u.startTime.getD prev.startTime
  analysisMode := u.analysisMode.getD prev.analysisMode

/-- The `switch (message.type)` dispatch of `ws.onmessage` in `connect`:
effect of one parsed message on the view.
`trade`: `setTrades(prev => [...prev.slice(-49), trade])`.
`action`: `setActions(prev => [action, ...prev.slice(0, 49)])`.
`state_update`: `setState(prev => prev ? { ...prev, ...update } : null)`. -/
def handleMessage (v : View) (m : WSMessage) : View :=
  match m with
  | .initialState s rt ra =>
      { v with state := some s, trades := rt.getD [], actions := ra.getD [] }
  | .trade t => { v with trades := sliceLastN v.trades 49 ++ [t] }
  | .action a => { v with actions := a :: v.actions.take 49 }
  | .stateUpdate u =>
      { v with state := match v.state with
                        | some prev => some (mergeState prev u)
                        | none => none }
  | .pong => v
  | .unknown _ => v

/-- The whole `ws.onmessage` handler: an early return when the liveness flag
`mountedRef.current` is cleared, then `JSON.parse` inside `try`/`catch`
(`none` models a payload that fails to parse; the catch only logs). -/
def onMessage (mounted : Bool) (v : View) (raw : Option WSMessage) : View :=
  if mounted then
    match raw with
    | none => v
    | some m => handleMessage v m
  else v

deriving instance DecidableEq for Except

/-- Outcome of one `fetch(...)` promise: either the promise rejects, or a
response arrives with an `ok` flag and a body whose `.json()` may itself
reject (`Except.error`). -/
inductive FetchOutcome (α : Type) where
  | reject
  | response (ok : Bool) (body : Except Unit α)
deriving DecidableEq

/-- Parsed body of the `/api/bot` fallback response as read by the client:
only `botData.state` is inspected; `none` models a null or absent `state`
(falsy in the `if (botData.state)` guard). -/
structure BotApiBody where
  state : Option BotState
deriving DecidableEq

/-- Parsed body of the `/api/actions` fallback response as read by the client:
only `actionsData.actions` is inspected; `none` models a null or absent
`actions` (falsy in the `if (actionsData.actions)` guard; an empty array is
truthy and modelled as `some []`). -/
structure ActionsApiBody where
  actions : Option (List BotAction)
deriving DecidableEq

/-- The second half of `fetchInitialState`: the
`if (actionsRes.ok) { ... setActions(actionsData.actions) }` block, reached
only when neither promise rejected.  A body whose `.json()` rejects throws
into the surrounding `catch`, leaving the view as it stands at that point. -/
def applyActionsRes (v : View) (aok : Bool) (abody : Except Unit ActionsApiBody) :
    View :=
  if aok then
    match abody with
    | .error _ => v
    | .ok ad =>
        match ad.actions with
        | some acts => { v with actions := acts }
        | none => v
  else v

/-- `fetchInitialState` of `use-bot-stream.ts`: both fetches are awaited
jointly via `Promise.all`, so a rejection of either promise jumps to the
`catch` before any response is examined; otherwise the bot-state block runs
first (`if (botRes.ok) ... if (botData.state) setState(botData.state)`),
then the actions block. -/
def fetchInitialState (v : View) (bot : FetchOutcome BotApiBody)
    (acts : FetchOutcome ActionsApiBody) : View :=
  match bot, acts with
  | .reject, _ => v
  | _, .reject => v
  | .response bok bbody, .response aok abody =>
      if bok then
        match bbody with
        | .error _ => v
        | .ok bd =>
            let v1 := match bd.state with
                      | some s => { v with state := some s }
                      | none => v
            applyActionsRes v1 aok abody
      else applyActionsRes v aok abody

/-- A client session: the liveness flag `mountedRef.current` next to the view.
The effect cleanup clears `mounted`; the transport handlers read it, but
`fetchInitialState` contains no read of it. -/
structure Client where
  mounted : Bool
  view : View
deriving DecidableEq

/-- Completion of an in-flight `fetchInitialState` at the session level: the
source body never consults `mountedRef`, so the view is updated exactly as
`fetchInitialState` dictates whatever the flag holds. -/
def fetchInitialStateClient (c : Client) (bot : FetchOutcome BotApiBody)
    (acts : FetchOutcome ActionsApiBody) : Client :=
  { c with view := fetchInitialState c.view bot acts }

/-- `RECONNECT_DELAY` constant (ms). -/
def RECONNECT_DELAY : ℚ := 3000

/-- `MAX_RECONNECT_DELAY` constant (ms). -/
def MAX_RECONNECT_DELAY : ℚ := 30000

/-- The update applied to `reconnectDelayRef.current` inside the reconnect
timer callback: `Math.min(reconnectDelayRef.current * 1.5, MAX_RECONNECT_DELAY)`. -/
def nextDelay (d : ℚ) : ℚ :=
  min (d * 1.5) MAX_RECONNECT_DELAY

/-- `ws.onopen` resets `reconnectDelayRef.current = RECONNECT_DELAY`,
whatever it held before. -/
def onOpenDelay (_d : ℚ) : ℚ := RECONNECT_DELAY

/-- Value of `reconnectDelayRef.current` after `k` firings of the reconnect
timer starting from `d`.  `ws.onclose` after failure `N` schedules its timer
with the ref's current value, i.e. with `delayAfterFailures d (N-1)` when the
streak started at `d`. -/
def delayAfterFailures (d : ℚ) : Nat → ℚ
  | 0 => d
  | k + 1 => nextDelay (delayAfterFailures d k)

/-- A field read off a parsed JSON file: the key may be absent, hold `null`,
or hold a value. -/
inductive JField (α : Type) where
  | absent
  | null
  | val (a : α)
deriving DecidableEq

/-- JS `x || d` on a numeric JSON field: absent, `null` and `0` are falsy. -/
def jOrInt (x : JField Int) (d : Int) : Int :=
  match x with
  | .val n => if n = 0 then d else n
  | _ => d

/-- JS `x || d` on a string JSON field: absent, `null` and `""` are falsy. -/
def jOrStr (x : JField String) (d : String) : String :=
  match x with
  | .val s => if s = "" then d else s
  | _ => d

/-- The snake_case fields of `monitor_state.json` read by the `/api/bot`
route handler. -/
structure RawBotFile where
  token_address : JField String
  total_buys : JField Int
  total_sells : JField Int
  total_buy_volume : JField Int
  total_sell_volume : JField Int
  last_price : JField Int
  highest_price : JField Int
  lowest_price : JField Int
  last_market_cap : JField Int
  last_holder_count : JField Int
  last_creator_rewards_available : JField Int
  creator_rewards : JField Int
  total_analyses : JField Int
  total_alerts : JField Int
  start_time : JField Int
  analysis_mode : JField String
deriving DecidableEq

/-- The camelCase `state` object built by the `/api/bot` route handler.
Fields produced by a bare pass-through keep the `JField` shape (an absent
file key stays absent in the response); fields produced through `|| 0` or
`|| 'brief'` are always present. -/
structure ApiBotState where
  tokenAddress : JField String
  totalBuys : Int
  totalSells : Int
  totalBuyVolume : Int
  totalSellVolume : Int
  lastPrice : JField Int
  highestPrice : JField Int
  lowestPrice : JField Int
  lastMarketCap : JField Int
  lastHolderCount : JField Int
  lastCreatorRewardsAvailable : Int
  creatorRewards : Int
  totalAnalyses : Int
  totalAlerts : Int
  startTime : JField Int
  analysisMode : String
deriving DecidableEq

/-- The field mapping of the `/api/bot` handler's success branch. -/
def mapBotFileState (s : RawBotFile) : ApiBotState where
  tokenAddress := s.token_address
  totalBuys := jOrInt s.total_buys 0
  totalSells := jOrInt s.total_sells 0
  totalBuyVolume := jOrInt s.total_buy_volume 0
  totalSellVolume := jOrInt s.total_sell_volume 0
  lastPrice := s.last_price
  highestPrice := s.highest_price
  lowestPrice := s.lowest_price
  lastMarketCap := s.last_market_cap
  lastHolderCount := s.last_holder_count
  lastCreatorRewardsAvailable := jOrInt s.last_creator_rewards_available 0
  creatorRewards := jOrInt s.creator_rewards 0
  totalAnalyses := jOrInt s.total_analyses 0
  totalAlerts := jOrInt s.total_alerts 0
  startTime := s.start_time
  analysisMode := jOrStr s.analysis_mode "brief"

/-- An HTTP response of the `/api/bot` route: status code and the JSON body
fields it may carry. -/
structure BotApiResult where
  status : Nat
  connected : Bool
  state : Option ApiBotState
  message : Option String
  error : Option String
deriving DecidableEq

/-- The `/api/bot` `GET` handler.  Input: `none` when `monitor_state.json`
does not exist, `some (Except.error e)` when reading or `JSON.parse` fails
with message `e`, `some (Except.ok s)` when the file parses to `s`. -/
def botGET (file : Option (Except String RawBotFile)) : BotApiResult :=
  match file with
  | none =>
      { status := 200, connected := false, state := none
        message := some "Bot state file not found. Is the bot running?"
        error := none }
  | some (.error e) =>
      { status := 500, connected := false, state := none
        message := some "Error reading bot state", error := some e }
  | some (.ok s) =>
      { status := 200, connected := true, state := some (mapBotFileState s)
        message := none, error := none }

/-- Sample bot state holding `n` total buys, all other fields neutral. -/
def sampleState (n : Int) : BotState where
  tokenAddress := none
  totalBuys := n
  totalSells := 0
  totalBuyVolume := 0
  totalSellVolume := 0
  lastPrice := none
  highestPrice := none
  lowestPrice := none
  lastMarketCap := none
  lastHolderCount := none
  lastCreatorRewardsAvailable := 0
  creatorRewards := 0
  totalAnalyses := 0
  startTime := none
  analysisMode := "brief"

/-- Sample trade. -/
def sampleTrade : Trade where
  timestamp := 0
  type := "buy"
  price := 1
  sol_amount := 1
  volume_usd := 1
  token_amount := 1
  market_cap_sol := 1
  holder_count := .num 1
  user := "u"
  signature := "sig"
  aiComment := none

/-- Sample action. -/
def sampleAction : BotAction where
  timestamp := "t0"
  type := "analysis"
  description := "d"
  details := []

/-- The view before any message or fetch result arrives. -/
def emptyView : View where
  isConnected := false
  state := none
  trades := []
  actions := []
  error := none

/-- A state file that parses to an object with no keys at all. -/
def emptyRawFile : RawBotFile where
  token_address := .absent
  total_buys := .absent
  total_sells := .absent
  total_buy_volume := .absent
  total_sell_volume := .absent
  last_price := .absent
  highest_price := .absent
  lowest_price := .absent
  last_market_cap := .absent
  last_holder_count := .absent
  last_creator_rewards_available := .absent
  creator_rewards := .absent
  total_analyses := .absent
  total_alerts := .absent
  start_time := .absent
  analysis_mode := .absent

/-- The `trade` branch of the message dispatch, on the bare list:
`[...prev.slice(-49), trade]`. -/
def applyTrade (l : List Trade) (t : Trade) : List Trade :=
  sliceLastN l 49 ++ [t]

/-- The `action` branch of the message dispatch, on the bare list:
`[action, ...prev.slice(0, 49)]`. -/
def applyAction (l : List BotAction) (a : BotAction) : List BotAction :=
  a :: l.take 49

/-- A burst of `trade` messages fed through the dispatch in arrival order. -/
def applyTradeMsgs (v : View) (ts : List Trade) : View :=
  ts.foldl (fun w t => handleMessage w (.trade t)) v

/-- A burst of `action` messages fed through the dispatch in arrival order. -/
def applyActionMsgs (v : View) (items : List BotAction) : View :=
  items.foldl (fun w a => handleMessage w (.action a)) v

theorem sliceLastN_length (l : List α) (n : Nat) :
    (sliceLastN l n).length = min l.length n := by
  simp only [sliceLastN, List.length_drop]
  omega

theorem sliceLastN_of_le {l : List α} {n : Nat} (h : l.length ≤ n) :
    sliceLastN l n = l := by
  simp [sliceLastN, Nat.sub_eq_zero_of_le h]

theorem sliceLastN_append_singleton (l : List α) (x : α) (n : Nat) :
    sliceLastN (l ++ [x]) (n + 1) = sliceLastN l n ++ [x] := by
  unfold sliceLastN
  rw [List.length_append]
  have h2 : l.length + [x].length - (n + 1) = l.length - n := by simp
  rw [h2, List.drop_append_of_le_length (by omega)]

theorem sliceLastN_sliceLastN (l : List α) {m n : Nat} (h : n ≤ m) :
    sliceLastN (sliceLastN l m) n = sliceLastN l n := by
  unfold sliceLastN
  rw [List.length_drop, List.drop_drop]
  congr 1
  omega

theorem applyTradeMsgs_trades (v : View) (ts : List Trade) :
    (applyTradeMsgs v ts).trades = ts.foldl applyTrade v.trades := by
  induction ts generalizing v with
  | nil => rfl
  | cons t ts ih =>
      show (applyTradeMsgs (handleMessage v (.trade t)) ts).trades = _
      rw [ih]
      rfl

theorem applyActionMsgs_actions (v : View) (items : List BotAction) :
    (applyActionMsgs v items).actions = items.foldl applyAction v.actions := by
  induction items generalizing v with
  | nil => rfl
  | cons a items ih =>
      show (applyActionMsgs (handleMessage v (.action a)) items).actions = _
      rw [ih]
      rfl

theorem foldl_applyTrade_eq (ms : List Trade) (start : List Trade)
    (h : start.length ≤ 50) :
    ms.foldl applyTrade start = sliceLastN (start ++ ms) 50 := by
  induction ms using List.reverseRecOn with
  | nil => simp [sliceLastN_of_le h]
  | append_singleton ms m ih =>
      rw [List.foldl_append, List.foldl_cons, List.foldl_nil, ih]
      show sliceLastN (sliceLastN (start ++ ms) 50) 49 ++ [m] = _
      rw [sliceLastN_sliceLastN _ (by omega), ← List.append_assoc,
        ← sliceLastN_append_singleton]

theorem foldl_applyAction_eq (ms : List BotAction) (start : List BotAction)
    (h : start.length ≤ 50) :
    ms.foldl applyAction start = (ms.reverse ++ start).take 50 := by
  induction ms using List.reverseRecOn with
  | nil => simp [List.take_of_length_le h]
  | append_singleton ms a ih =>
      rw [List.foldl_append, List.foldl_cons, List.foldl_nil, ih]
      show a :: ((ms.reverse ++ start).take 50).take 49 = _
      rw [List.take_take, List.reverse_append, List.reverse_singleton]
      rfl

theorem applyActionsRes_state (v : View) (aok : Bool)
    (abody : Except Unit ActionsApiBody) :
    (applyActionsRes v aok abody).state = v.state := by
  unfold applyActionsRes
  split
  · split
    · rfl
    · split <;> rfl
  · rfl

/-- C7: an unrecognised message type, as well as a payload that does not
parse, leaves the whole view (in particular `state`, `trades`, `actions`)
unchanged; the handler is a total function, so no exception can escape it. -/
theorem unknown_or_malformed_message_noop (v : View) (mounted : Bool)
    (tag : String) :
    onMessage mounted v (some (.unknown tag)) = v ∧ onMessage mounted v none = v := by
  cases mounted <;> exact ⟨rfl, rfl⟩

/-- C8: a `state_update` shallow-merges its fields into the existing state —
each field carried by the update replaces the old value and each absent field
keeps it — and is a complete no-op when no prior state exists. -/
theorem state_update_partial_merge (v : View) (u : BotStateUpdate) :
    handleMessage v (.stateUpdate u) =
      { v with state := v.state.map (fun p => mergeState p u) } ∧
    ∀ p : BotState,
      (mergeState p u).tokenAddress = u.tokenAddress.getD p.tokenAddress ∧
      (mergeState p u).totalBuys = u.totalBuys.getD p.totalBuys ∧
      (mergeState p u).totalSells = u.totalSells.getD p.totalSells ∧
      (mergeState p u).totalBuyVolume = u.totalBuyVolume.getD p.totalBuyVolume ∧
      (mergeState p u).totalSellVolume = u.totalSellVolume.getD p.totalSellVolume ∧
      (mergeState p u).lastPrice = u.lastPrice.getD p.lastPrice ∧
      (mergeState p u).highestPrice = u.highestPrice.getD p.highestPrice ∧
      (mergeState p u).lowestPrice = u.lowestPrice.getD p.lowestPrice ∧
      (mergeState p u).lastMarketCap = u.lastMarketCap.getD p.lastMarketCap ∧
      (mergeState p u).lastHolderCount = u.lastHolderCount.getD p.lastHolderCount ∧
      (mergeState p u).lastCreatorRewardsAvailable =
        u.lastCreatorRewardsAvailable.getD p.lastCreatorRewardsAvailable ∧
      (mergeState p u).creatorRewards = u.creatorRewards.getD p.creatorRewards ∧
      (mergeState p u).totalAnalyses = u.totalAnalyses.getD p.totalAnalyses ∧
      (mergeState p u).startTime = u.startTime.getD p.startTime ∧
      (mergeState p u).analysisMode = u.analysisMode.getD p.analysisMode := by
  constructor
  · obtain ⟨c, st, tr, ac, er⟩ := v
    cases st <;> rfl
  · exact fun p =>
      ⟨rfl, rfl, rfl, rfl, rfl, rfl, rfl, rfl, rfl, rfl, rfl, rfl, rfl, rfl, rfl⟩

/-- C10: a fallback bot-state response whose `state` field is null or absent
never touches the view's `state`, whatever the `ok` flag and whatever the
actions request did. -/
theorem fallback_null_state_preserves_state (v : View) (bok : Bool)
    (acts : FetchOutcome ActionsApiBody) :
    (fetchInitialState v (.response bok (.ok ⟨none⟩)) acts).state = v.state := by
  cases acts with
  | reject => rfl
  | response aok abody =>
      cases bok
      · simpa [fetchInitialState] using applyActionsRes_state v aok abody
      · simpa [fetchInitialState] using applyActionsRes_state v aok abody

/-- C3: starting from a trades list of at most 50 entries, after any prefix of
a burst of `trade` messages the list still has at most 50 entries and equals
the last 50 elements of (old list ++ messages received so far) — the most
recent trades in arrival order, newest last, oldest evicted on overflow. -/
theorem trades_bounded_most_recent (v : View) (msgs : List Trade)
    (h : v.trades.length ≤ 50) (n : Nat) :
    (applyTradeMsgs v (msgs.take n)).trades.length ≤ 50 ∧
    (applyTradeMsgs v (msgs.take n)).trades =
      sliceLastN (v.trades ++ msgs.take n) 50 := by
  have he := applyTradeMsgs_trades v (msgs.take n)
  have heq := foldl_applyTrade_eq (msgs.take n) v.trades h
  refine ⟨?_, by rw [he, heq]⟩
  rw [he, heq, sliceLastN_length]
  omega

theorem trades_bounded_most_recent_witness :
    emptyView.trades.length ≤ 50 ∧
    ((applyTradeMsgs emptyView ([sampleTrade].take 1)).trades.length ≤ 50 ∧
     (applyTradeMsgs emptyView ([sampleTrade].take 1)).trades =
       sliceLastN (emptyView.trades ++ [sampleTrade].take 1) 50) :=
  ⟨by decide, trades_bounded_most_recent emptyView [sampleTrade] (by decide) 1⟩

/-- C4: starting from an actions list of at most 50 entries, after any prefix
of a burst of `action` messages the list still has at most 50 entries and
equals the first 50 elements of (messages received so far, reversed ++ old
list) — the most recent actions newest-first, oldest (tail) evicted. -/
theorem actions_bounded_most_recent (v : View) (msgs : List BotAction)
    (h : v.actions.length ≤ 50) (n : Nat) :
    (applyActionMsgs v (msgs.take n)).actions.length ≤ 50 ∧
    (applyActionMsgs v (msgs.take n)).actions =
      ((msgs.take n).reverse ++ v.actions).take 50 := by
  have he := applyActionMsgs_actions v (msgs.take n)
  have heq := foldl_applyAction_eq (msgs.take n) v.actions h
  refine ⟨?_, by rw [he, heq]⟩
  rw [he, heq]
  have := List.length_take 50 ((msgs.take n).reverse ++ v.actions)
  omega

theorem actions_bounded_most_recent_witness :
    emptyView.actions.length ≤ 50 ∧
    ((applyActionMsgs emptyView ([sampleAction].take 1)).actions.length ≤ 50 ∧
     (applyActionMsgs emptyView ([sampleAction].take 1)).actions =
       (([sampleAction].take 1).reverse ++ emptyView.actions).take 50) :=
  ⟨by decide, actions_bounded_most_recent emptyView [sampleAction] (by decide) 1⟩

/-- C1 counterexample: the stream populates the view via `initial_state` with
`totalBuys = 5`; a fallback bot-state response carrying `totalBuys = 3` then
resolves, and the final view holds `totalBuys = 3`, not the 5 the claim
requires — `fetchInitialState` overwrites streamed state unconditionally. -/
theorem fallback_overwrites_streamed_state_cex :
    (fetchInitialState
        (handleMessage emptyView (.initialState (sampleState 5) none none))
        (.response true (.ok ⟨some (sampleState 3)⟩))
        (.response true (.ok ⟨none⟩))).state.map BotState.totalBuys = some 3 ∧
    ((3 : Int) = 5 → False) := by
  exact ⟨rfl, by decide⟩

/-- C1 amended: when neither fallback promise rejects and the bot-state
response is `ok` with a non-null `state`, that state replaces the view's
state wholesale — last write wins, regardless of what the stream had already
delivered; only a null/absent `state` leaves the view's state alone. -/
theorem fallback_state_last_write_wins (v : View) (s : BotState) (aok : Bool)
    (abody : Except Unit ActionsApiBody) :
    (fetchInitialState v (.response true (.ok ⟨some s⟩))
        (.response aok abody)).state = some s := by
  simpa [fetchInitialState]
    using applyActionsRes_state { v with state := some s } aok abody

/-- C5 counterexample: the bot-state fetch rejects while the actions fetch
succeeds with a non-empty actions array, yet nothing is merged — the joint
`await Promise.all` throws before either response is examined, so the view is
returned exactly as it was, refuting the claimed independence. -/
theorem fallback_reject_discards_both_cex :
    fetchInitialState emptyView .reject
        (.response true (.ok ⟨some [sampleAction]⟩)) = emptyView ∧
    emptyView.actions ≠ [sampleAction] :=
  ⟨rfl, by decide⟩

/-- C5 amended: independence holds for HTTP-status failures only — if one
request resolves with a non-ok status and the other succeeds, the successful
response's data is still merged; a rejected promise, by contrast, discards
both (previous counterexample). -/
theorem fallback_non_ok_independent (v : View) (bbody : Except Unit BotApiBody)
    (abody : Except Unit ActionsApiBody) (items : List BotAction) (s : BotState) :
    (fetchInitialState v (.response false bbody)
        (.response true (.ok ⟨some items⟩))).actions = items ∧
    (fetchInitialState v (.response true (.ok ⟨some s⟩))
        (.response false abody)).state = some s := by
  constructor
  · simp [fetchInitialState, applyActionsRes]
  · simpa [fetchInitialState]
      using applyActionsRes_state { v with state := some s } false abody

/-- C6 counterexample: with the liveness flag already cleared
(`mounted = false`), a completing fallback fetch still writes its `state`
into the view — `fetchInitialState` contains no liveness check, so the
fetched data is not discarded and the view changes. -/
theorem fetch_after_stop_applies_cex :
    (fetchInitialStateClient ⟨false, emptyView⟩
        (.response true (.ok ⟨some (sampleState 3)⟩))
        (.response true (.ok ⟨none⟩))).view.state = some (sampleState 3) ∧
    emptyView.state = none ∧
    (some (sampleState 3) ≠ (none : Option BotState)) := by
  refine ⟨rfl, rfl, by decide⟩

/-- C6 amended: the liveness flag is checked by the transport message handler
(a message arriving after stop leaves the view unchanged), but not by the
fallback fetch: `fetchInitialState` applies its results identically whether
the client is stopped or live. -/
theorem fetch_ignores_liveness_flag (v : View) (bot : FetchOutcome BotApiBody)
    (acts : FetchOutcome ActionsApiBody) (raw : Option WSMessage) :
    (fetchInitialStateClient ⟨false, v⟩ bot acts).view =
      (fetchInitialStateClient ⟨true, v⟩ bot acts).view ∧
    onMessage false v raw = v :=
  ⟨rfl, rfl⟩

/-- C9 counterexample: a state file that parses but carries no keys yields a
200 response whose defaulted counters are 0 but whose `lastPrice` — a numeric
field absent from the file — is absent in the response, not 0, refuting
"every numeric field absent from the file defaults to 0". -/
theorem bot_api_absent_numeric_not_defaulted_cex :
    (botGET (some (.ok emptyRawFile))).status = 200 ∧
    (botGET (some (.ok emptyRawFile))).state.map ApiBotState.totalBuys = some 0 ∧
    (botGET (some (.ok emptyRawFile))).state.map ApiBotState.lastPrice =
      some JField.absent ∧
    JField.absent ≠ JField.val (0 : Int) := by
  refine ⟨rfl, rfl, rfl, by decide⟩

/-- C9 amended: the handler maps snake_case to camelCase; the `|| 0`-guarded
counters (total_buys, total_sells, total_buy_volume, total_sell_volume,
last_creator_rewards_available, creator_rewards, total_analyses,
total_alerts) default to 0 when absent or null, while the pass-through
numeric fields (last_price, highest_price, lowest_price, last_market_cap,
last_holder_count, start_time) keep their file shape, so an absent one stays
absent rather than defaulting to 0; an absent file yields HTTP 200 with
`connected:false` and `state:null`; a read/parse failure yields HTTP 500
echoing the error. -/
theorem bot_api_mapping :
    botGET none = { status := 200, connected := false, state := none
                    message := some "Bot state file not found. Is the bot running?"
                    error := none } ∧
    (∀ e : String,
      botGET (some (.error e)) =
        { status := 500, connected := false, state := none
          message := some "Error reading bot state", error := some e }) ∧
    (∀ raw : RawBotFile,
      botGET (some (.ok raw)) =
        { status := 200, connected := true, state := some (mapBotFileState raw)
          message := none, error := none } ∧
      (mapBotFileState raw).totalBuys = jOrInt raw.total_buys 0 ∧
      (mapBotFileState raw).totalSells = jOrInt raw.total_sells 0 ∧
      (mapBotFileState raw).totalBuyVolume = jOrInt raw.total_buy_volume 0 ∧
      (mapBotFileState raw).totalSellVolume = jOrInt raw.total_sell_volume 0 ∧
      (mapBotFileState raw).lastCreatorRewardsAvailable =
        jOrInt raw.last_creator_rewards_available 0 ∧
      (mapBotFileState raw).creatorRewards = jOrInt raw.creator_rewards 0 ∧
      (mapBotFileState raw).totalAnalyses = jOrInt raw.total_analyses 0 ∧
      (mapBotFileState raw).totalAlerts = jOrInt raw.total_alerts 0 ∧
      (mapBotFileState raw).tokenAddress = raw.token_address ∧
      (mapBotFileState raw).lastPrice = raw.last_price ∧
      (mapBotFileState raw).highestPrice = raw.highest_price ∧
      (mapBotFileState raw).lowestPrice = raw.lowest_price ∧
      (mapBotFileState raw).lastMarketCap = raw.last_market_cap ∧
      (mapBotFileState raw).lastHolderCount = raw.last_holder_count ∧
      (mapBotFileState raw).startTime = raw.start_time ∧
      (mapBotFileState raw).analysisMode = jOrStr raw.analysis_mode "brief") ∧
    (∀ d : Int, jOrInt JField.absent d = d ∧ jOrInt JField.null d = d) ∧
    (∀ d : String, jOrStr JField.absent d = d ∧ jOrStr JField.null d = d) := by
  refine ⟨rfl, fun e => rfl, fun raw => ?_, fun d => ⟨rfl, rfl⟩, fun d => ⟨rfl, rfl⟩⟩
  exact ⟨rfl, rfl, rfl, rfl, rfl, rfl, rfl, rfl, rfl, rfl, rfl, rfl, rfl, rfl,
    rfl, rfl, rfl⟩

theorem delayAfterFailures_formula (k : Nat) :
    delayAfterFailures RECONNECT_DELAY k = min (3000 * (1.5 : ℚ) ^ k) 30000 := by
  induction k with
  | zero =>
      show RECONNECT_DELAY = _
      rw [pow_zero, mul_one, min_eq_left (by norm_num : (3000 : ℚ) ≤ 30000)]
      norm_num [RECONNECT_DELAY]
  | succ k ih =>
      show nextDelay (delayAfterFailures RECONNECT_DELAY k) = _
      rw [ih]
      unfold nextDelay MAX_RECONNECT_DELAY
      rw [min_mul_of_nonneg _ _ (by norm_num : (0 : ℚ) ≤ 1.5)]
      rw [min_assoc]
      have h1 : (3000 : ℚ) * 1.5 ^ k * 1.5 = 3000 * 1.5 ^ (k + 1) := by ring
      have h2 : min ((30000 : ℚ) * 1.5) 30000 = 30000 := by norm_num
      rw [h1, h2]

/-- C2: once `ws.onopen` has reset the delay (from any prior value `d0`),
the delay scheduled by `ws.onclose` at the N-th consecutive failure — the
ref's value after N-1 reconnect-timer firings — equals
`min (3000 * 1.5 ^ (N-1)) 30000` milliseconds; in particular at N = 1 it is
back to the 3000 ms base whatever `d0` was. -/
theorem reconnect_backoff_formula (d0 : ℚ) (N : Nat) (hN : 1 ≤ N) :
    delayAfterFailures (onOpenDelay d0) (N - 1) =
      min (3000 * (1.5 : ℚ) ^ (N - 1)) 30000 := by
  obtain ⟨k, rfl⟩ : ∃ k, N = k + 1 := ⟨N - 1, (Nat.succ_pred_eq_of_pos hN).symm⟩
  simpa [onOpenDelay] using delayAfterFailures_formula k

theorem reconnect_backoff_formula_witness :
    1 ≤ 8 ∧
    delayAfterFailures (onOpenDelay 12345) (8 - 1) =
      min (3000 * (1.5 : ℚ) ^ (8 - 1)) 30000 :=
  ⟨by decide, reconnect_backoff_formula 12345 8 (by decide)⟩

end ClawdeBot
